import Mathlib

/-!
Verification development for the `chatbotclima` repository (`src/app.py`).

The Python source is shallowly embedded: Python strings become `List Char`,
Python `None`-able values become `Option`, raised exceptions become
`Except`, and the wall clock / network are abstracted as explicit inputs.
Each definition carries a comment naming the source construct it embeds.
-/

namespace ChatbotClima

/-- Convert a Lean string literal to the `List Char` representation used for
Python strings throughout this development. -/
def cs (s : String) : List Char := s.toList

/-- Python `str.lower()` restricted to the alphabet that actually occurs in the
program's data: ASCII letters plus the Spanish accented capitals handled by
the replacement table of `_eliminar_tildes`. Other characters are unchanged. -/
def pyLower (c : Char) : Char :=
  if c.isUpper then c.toLower
  else if c = 'Á' then 'á' else if c = 'É' then 'é' else if c = 'Í' then 'í'
  else if c = 'Ó' then 'ó' else if c = 'Ú' then 'ú' else if c = 'Ü' then 'ü'
  else if c = 'Ñ' then 'ñ' else if c = 'À' then 'à' else if c = 'È' then 'è'
  else if c = 'Ì' then 'ì' else if c = 'Ò' then 'ò' else if c = 'Ù' then 'ù'
  else c

/-- The `reemplazos` character table of `ChatbotClima._eliminar_tildes`
(src/app.py lines 710-714): `reemplazos.get(c, c)`. -/
def reemplazosChar (c : Char) : Char :=
  if c = 'á' then 'a' else if c = 'é' then 'e' else if c = 'í' then 'i'
  else if c = 'ó' then 'o' else if c = 'ú' then 'u' else if c = 'ü' then 'u'
  else if c = 'ñ' then 'n' else if c = 'à' then 'a' else if c = 'è' then 'e'
  else if c = 'ì' then 'i' else if c = 'ò' then 'o' else if c = 'ù' then 'u'
  else c

/-- Function `ChatbotClima._eliminar_tildes` (src/app.py lines 708-715):
`''.join(reemplazos.get(c, c) for c in texto.lower())`. -/
def eliminarTildes (texto : List Char) : List Char :=
  (texto.map pyLower).map reemplazosChar

/-- Whitespace recognized by Python `str.split()` / `str.strip()`
(restricted to the ASCII whitespace that can occur in the data of the program). -/
def esEspacio (c : Char) : Bool :=
  c = ' ' || c = '\t' || c = '\n' || c = '\r'

/-- Python `str.split()` with no argument: split on runs of whitespace,
discarding empty pieces. Auxiliary accumulator version. -/
def splitWsAux : List Char → List Char → List (List Char)
  | [], acc => if acc.isEmpty then [] else [acc.reverse]
  | c :: resto, acc =>
    if esEspacio c then
      if acc.isEmpty then splitWsAux resto []
      else acc.reverse :: splitWsAux resto []
    else splitWsAux resto (c :: acc)

/-- Python `str.split()` with no argument. -/
def splitWs (l : List Char) : List (List Char) := splitWsAux l []

/-- Python `str.strip()`: drop leading and trailing whitespace. -/
def pyStrip (l : List Char) : List Char :=
  ((l.dropWhile esEspacio).reverse.dropWhile esEspacio).reverse

/-- Does `pajar` start with `aguja`? (helper for the Python `in` operator). -/
def empiezaCon : List Char → List Char → Bool
  | [], _ => true
  | _ :: _, [] => false
  | a :: as, b :: bs => a = b && empiezaCon as bs

/-- The Python substring operator `aguja in pajar` on strings: `aguja` occurs
contiguously inside `pajar` (the empty string is in every string). -/
def esSubcadena (aguja : List Char) : List Char → Bool
  | [] => aguja.isEmpty
  | pajar@(_ :: resto) => empiezaCon aguja pajar || esSubcadena aguja resto

/-- Python dict lookup `d.get(clave)` for a dict represented as an association
list in insertion order (all dict literals in the source have distinct keys,
so first-match lookup is exact). -/
def busca {α : Type} (clave : List Char) : List (List Char × α) → Option α
  | [] => none
  | (k, v) :: resto => if k = clave then some v else busca clave resto

/-- Table `SALUDOS` (src/app.py line 37). -/
def saludos : List (List Char) :=
  [cs "hola", cs "buenos días", cs "buenas tardes", cs "buenas noches",
   cs "hey", cs "saludos"]

/-- Table `PALABRAS_CLIMA` (src/app.py line 38). -/
def palabrasClima : List (List Char) :=
  [cs "clima", cs "tiempo", cs "temperatura", cs "pronóstico",
   cs "hace calor", cs "hace frío"]

/-- Table `PALABRAS_HORA` (src/app.py line 39). -/
def palabrasHora : List (List Char) :=
  [cs "hora", cs "qué horas son", cs "dime la hora"]

/-- A `PAISES_INFO` record: capital and ISO code (src/app.py lines 75-97). -/
structure PaisInfo where
  capital : List Char
  codigo : List Char
deriving DecidableEq

/-- Table `PAISES_INFO` (src/app.py lines 75-97), in dict insertion order. -/
def paisesInfo : List (List Char × PaisInfo) :=
  [(cs "chile", ⟨cs "Santiago", cs "CL"⟩),
   (cs "argentina", ⟨cs "Buenos Aires", cs "AR"⟩),
   (cs "españa", ⟨cs "Madrid", cs "ES"⟩),
   (cs "mexico", ⟨cs "Ciudad de México", cs "MX"⟩),
   (cs "colombia", ⟨cs "Bogotá", cs "CO"⟩),
   (cs "peru", ⟨cs "Lima", cs "PE"⟩),
   (cs "venezuela", ⟨cs "Caracas", cs "VE"⟩),
   (cs "ecuador", ⟨cs "Quito", cs "EC"⟩),
   (cs "bolivia", ⟨cs "La Paz", cs "BO"⟩),
   (cs "paraguay", ⟨cs "Asunción", cs "PY"⟩),
   (cs "uruguay", ⟨cs "Montevideo", cs "UY"⟩),
   (cs "brasil", ⟨cs "Brasilia", cs "BR"⟩),
   (cs "estados unidos", ⟨cs "Washington", cs "US"⟩),
   (cs "canada", ⟨cs "Ottawa", cs "CA"⟩),
   (cs "francia", ⟨cs "París", cs "FR"⟩),
   (cs "italia", ⟨cs "Roma", cs "IT"⟩),
   (cs "alemania", ⟨cs "Berlín", cs "DE"⟩),
   (cs "reino unido", ⟨cs "Londres", cs "GB"⟩),
   (cs "japon", ⟨cs "Tokio", cs "JP"⟩),
   (cs "china", ⟨cs "Pekín", cs "CN"⟩),
   (cs "rusia", ⟨cs "Moscú", cs "RU"⟩)]

/-- Dict `variaciones_paises`, the alias dict inside `_normalizar_pais`
(src/app.py lines 590-637), in dict insertion order. -/
def variacionesPaises : List (List Char × List Char) :=
  [(cs "usa", cs "estados unidos"),
   (cs "estados unidos de america", cs "estados unidos"),
   (cs "eeuu", cs "estados unidos"),
   (cs "united states", cs "estados unidos"),
   (cs "us", cs "estados unidos"),
   (cs "méxico", cs "mexico"),
   (cs "república dominicana", cs "republica dominicana"),
   (cs "rd", cs "republica dominicana"),
   (cs "vzla", cs "venezuela"),
   (cs "arg", cs "argentina"),
   (cs "chi", cs "chile"),
   (cs "col", cs "colombia"),
   (cs "per", cs "peru"),
   (cs "uru", cs "uruguay"),
   (cs "par", cs "paraguay"),
   (cs "ecu", cs "ecuador"),
   (cs "bol", cs "bolivia"),
   (cs "españa", cs "espana"),
   (cs "uk", cs "reino unido"),
   (cs "gran bretaña", cs "reino unido"),
   (cs "england", cs "reino unido"),
   (cs "francia", cs "francia"),
   (cs "fr", cs "francia"),
   (cs "alemania", cs "alemania"),
   (cs "de", cs "alemania"),
   (cs "italia", cs "italia"),
   (cs "it", cs "italia"),
   (cs "portugal", cs "portugal"),
   (cs "pt", cs "portugal"),
   (cs "japón", cs "japon"),
   (cs "jp", cs "japon"),
   (cs "china", cs "china"),
   (cs "cn", cs "china"),
   (cs "corea del sur", cs "corea del sur"),
   (cs "kr", cs "corea del sur"),
   (cs "australia", cs "australia"),
   (cs "au", cs "australia"),
   (cs "nueva zelanda", cs "nueva zelanda"),
   (cs "nz", cs "nueva zelanda")]

/-- Table `ZONAS_HORARIAS_PAIS` (src/app.py lines 168-226), in dict insertion
order; each country code maps to its ordered timezone candidate list. -/
def zonasHorariasPais : List (List Char × List (List Char)) :=
  [(cs "RU",
    [cs "Europe/Moscow", cs "Europe/Kaliningrad", cs "Europe/Samara",
     cs "Asia/Yekaterinburg", cs "Asia/Omsk", cs "Asia/Krasnoyarsk",
     cs "Asia/Irkutsk", cs "Asia/Yakutsk", cs "Asia/Vladivostok",
     cs "Asia/Magadan", cs "Asia/Kamchatka"]),
   (cs "US",
    [cs "America/New_York", cs "America/Chicago", cs "America/Denver",
     cs "America/Los_Angeles", cs "America/Anchorage", cs "Pacific/Honolulu"]),
   (cs "ES", [cs "Europe/Madrid"]),
   (cs "FR", [cs "Europe/Paris"]),
   (cs "DE", [cs "Europe/Berlin"]),
   (cs "IT", [cs "Europe/Rome"]),
   (cs "GB", [cs "Europe/London"]),
   (cs "PT", [cs "Europe/Lisbon"]),
   (cs "MX", [cs "America/Mexico_City", cs "America/Tijuana", cs "America/Cancun"]),
   (cs "BR", [cs "America/Sao_Paulo", cs "America/Manaus", cs "America/Belem"]),
   (cs "AR", [cs "America/Argentina/Buenos_Aires"]),
   (cs "CL", [cs "America/Santiago"]),
   (cs "CO", [cs "America/Bogota"]),
   (cs "PE", [cs "America/Lima"]),
   (cs "EC", [cs "America/Guayaquil"]),
   (cs "VE", [cs "America/Caracas"]),
   (cs "BO", [cs "America/La_Paz"]),
   (cs "PY", [cs "America/Asuncion"]),
   (cs "UY", [cs "America/Montevideo"]),
   (cs "CR", [cs "America/Costa_Rica"]),
   (cs "DO", [cs "America/Santo_Domingo"]),
   (cs "PA", [cs "America/Panama"]),
   (cs "HN", [cs "America/Tegucigalpa"]),
   (cs "SV", [cs "America/El_Salvador"]),
   (cs "NI", [cs "America/Managua"]),
   (cs "GT", [cs "America/Guatemala"])]

/-- The partial-match loop of `_normalizar_pais` (src/app.py lines 647-649):
`for pais in PAISES_INFO: if pais_normalizado in pais or pais in
pais_normalizado: return pais`, iterating keys in insertion order. -/
def buscaParcial (pn : List Char) : List (List Char) → Option (List Char)
  | [] => none
  | p :: resto =>
    if esSubcadena pn p || esSubcadena p pn then some p else buscaParcial pn resto

/-- Body of `ChatbotClima._normalizar_pais` (src/app.py lines 585-651) after
the initial `texto.lower().strip()` preprocessing: alias-table lookup with
fallthrough (`variaciones_paises.get(texto, texto)`), exact `PAISES_INFO`
key membership, then the substring fallback over `PAISES_INFO` keys. -/
def normalizarPaisNucleo (t : List Char) : Option (List Char) :=
  let pn := (busca t variacionesPaises).getD t
  if (busca pn paisesInfo).isSome then some pn
  else buscaParcial pn (paisesInfo.map Prod.fst)

/-- Function `ChatbotClima._normalizar_pais` (src/app.py lines 585-651):
`texto = texto.lower().strip()` followed by `normalizarPaisNucleo`. -/
def normalizarPais (texto : List Char) : Option (List Char) :=
  normalizarPaisNucleo (pyStrip (texto.map pyLower))

/-- List `patrones_ubicacion` (src/app.py line 678): the three location marker words en, de, a. -/
def patronesUbicacion : List (List Char) := [cs "en", cs "de", cs "a"]

/-- Location-search pass 1 of `extraer_entidades` (src/app.py lines 681-690):
scan tokens for a marker word followed by a token that `_normalizar_pais`
resolves; first success wins. A marker in final position is skipped
(`i + 1 < len(texto_tokenizado)` fails). -/
def buscarPass1 : List (List Char) → Option (List Char)
  | [] => none
  | [_] => none
  | t :: siguiente :: resto =>
    if t ∈ patronesUbicacion then
      match normalizarPais siguiente with
      | some p => some p
      | none => buscarPass1 (siguiente :: resto)
    else buscarPass1 (siguiente :: resto)

/-- Location-search pass 2 of `extraer_entidades` (src/app.py lines 693-699):
run every token through `_normalizar_pais`; first success wins. -/
def buscarPass2 : List (List Char) → Option (List Char)
  | [] => none
  | t :: resto =>
    match normalizarPais t with
    | some p => some p
    | none => buscarPass2 resto

/-- The combined location search of `extraer_entidades`: pass 1, and pass 2
only if pass 1 found nothing. -/
def buscarUbicacion (toks : List (List Char)) : Option (List Char) :=
  match buscarPass1 toks with
  | some p => some p
  | none => buscarPass2 toks

/-- The entity record built by `extraer_entidades` (src/app.py lines 669-675). -/
structure Entidades where
  esSaludo : Bool
  esClima : Bool
  esHora : Bool
  ubicacion : Option (List Char)
  esPais : Bool
deriving DecidableEq

/-- The all-false entity record returned for empty or non-string input
(src/app.py lines 655-662). -/
def entidadesVacias : Entidades := ⟨false, false, false, none, false⟩

/-- A Python value passed where a string is expected: either a string or some
non-string value (such as `None` or a number), on which string methods like
`.lower()` raise `AttributeError`. -/
inductive PyVal where
  | str (s : List Char)
  | nonStr
deriving DecidableEq

/-- Function `ChatbotClima.extraer_entidades` (src/app.py lines 653-706): guard for
empty/non-string input, `texto_limpio = _eliminar_tildes(texto.lower())`,
whitespace tokenization, the two location passes, and the three
substring-based intent flags. -/
def extraerEntidadesNucleo (s : List Char) : Entidades :=
  let limpio := eliminarTildes (s.map pyLower)
  let toks := splitWs limpio
  let ubic := buscarUbicacion toks
  ⟨saludos.any (fun k => esSubcadena k limpio),
   palabrasClima.any (fun k => esSubcadena k limpio),
   palabrasHora.any (fun k => esSubcadena k limpio),
   ubic,
   ubic.isSome⟩

/-- Guard of `extraer_entidades` (src/app.py lines 655-662): empty or
non-string input short-circuits to the all-false record. -/
def extraerEntidades : PyVal → Entidades
  | .nonStr => entidadesVacias
  | .str s => if s.isEmpty then entidadesVacias else extraerEntidadesNucleo s

/-- The fixed welcome message returned by `procesar_mensaje` on a greeting
(src/app.py lines 725-729, adjacent string literals concatenated). -/
def mensajeBienvenida : List Char :=
  cs "¡Hola! Soy tu asistente de clima y hora. Puedes preguntarme por el clima o la hora en cualquier ciudad o país del mundo. ¿En qué puedo ayudarte hoy?"

/-- The reply of `ChatbotClima.procesar_mensaje`: either a fixed literal text,
one of the three clarifying prompts, a dispatch into the weather pipeline
(`obtener_clima_actual`), a dispatch into the time pipeline
(`obtener_hora_ciudad`), or the clarifying question naming the location. -/
inductive Respuesta where
  | texto (t : List Char)
  | pedirCiudadClima
  | pedirCiudadHora
  | sinIntencion
  | obtenerClima (u : List Char)
  | obtenerHora (u : List Char)
  | aclararUbicacion (u : List Char)
deriving DecidableEq

/-- The no-location branch of `procesar_mensaje` (src/app.py lines 735-749). -/
def respuestaSinUbicacion (e : Entidades) : Respuesta :=
  if e.esClima then .pedirCiudadClima
  else if e.esHora then .pedirCiudadHora
  else .sinIntencion

/-- The with-location branch of `procesar_mensaje` (src/app.py lines 752-758). -/
def respuestaConUbicacion (e : Entidades) (u : List Char) : Respuesta :=
  if e.esClima then .obtenerClima u
  else if e.esHora then .obtenerHora u
  else .aclararUbicacion u

/-- Function `ChatbotClima.procesar_mensaje` (src/app.py lines 717-762): greeting
short-circuit, then the `if not ubicacion` branch (Python falsiness: `None`
or the empty string), then intent dispatch. -/
def procesarMensaje (mensaje : List Char) : Respuesta :=
  let e := extraerEntidades (.str mensaje)
  if e.esSaludo then .texto mensajeBienvenida
  else
    match e.ubicacion with
    | none => respuestaSinUbicacion e
    | some u =>
      if u.isEmpty then respuestaSinUbicacion e
      else respuestaConUbicacion e u

/-- Timezone selection of `ChatbotClima.obtener_zona_horaria` (src/app.py
lines 232-245). `tfAt` abstracts `self.tf.timezone_at(lat=lat, lng=lon)`
(the TimezoneFinder coordinate lookup); `codigoPais` and `paisUsuario` are
the `codigo_pais` and `pais_usuario` parameters. The pinned-zone branch only
fires when `pais_usuario` is truthy and its lowercasing is a `PAISES_INFO`
key; otherwise the zone comes from the coordinate lookup (`codigo_pais` is
never consulted on that path). -/
def obtenerZonaHoraria (tfAt : ℚ → ℚ → Option (List Char)) (lat lon : ℚ)
    (codigoPais paisUsuario : Option (List Char)) : Option (List Char) :=
  match paisUsuario with
  | some pu =>
    if pu.isEmpty then tfAt lat lon
    else
      match busca (pu.map pyLower) paisesInfo with
      | some info =>
        match busca info.codigo zonasHorariasPais with
        | some zonas => zonas.head?
        | none => tfAt lat lon
      | none => tfAt lat lon
  | none => tfAt lat lon

/-- The time-of-day label of `obtener_zona_horaria` (src/app.py lines
263-269), from the local hour. -/
def momentoDelDia (hora : ℕ) : List Char :=
  if 5 ≤ hora ∧ hora < 12 then cs "de la mañana"
  else if 12 ≤ hora ∧ hora < 20 then cs "de la tarde"
  else cs "de la noche"

/-- Constant `TIMEOUT` (src/app.py line 33): per-attempt HTTP timeout in seconds. -/
def TIMEOUT : ℕ := 15

/-- Constant `MAX_RETRIES` (src/app.py line 34). -/
def MAX_RETRIES : ℕ := 3

/-- Outcome of one HTTP attempt inside `_make_api_request`: a response with a
status code and parsed JSON body, or a transport/parse exception. -/
inductive ApiIntento (δ : Type) where
  | resp (status : ℕ) (data : δ)
  | excepcion

/-- An attempt succeeds iff it produced a response with status 200
(src/app.py lines 360-372); a non-200 status raises `WeatherAPIError`, which
the per-attempt `except Exception` handler treats like a transport failure. -/
def intentoExito {δ : Type} : ApiIntento δ → Option δ
  | .resp status data => if status = 200 then some data else none
  | .excepcion => none

/-- The retry loop of `ChatbotClima._make_api_request` (src/app.py lines
358-378), with the network abstracted as `resultado : attempt index →
outcome`. The Python `for attempt in range(MAX_RETRIES)` loop is modelled
by structural recursion over the list of remaining attempt indices. It
returns the result (`Except.error` models the final `WeatherAPIError`,
whose message string is not modelled) paired with the list of `time.sleep`
delays in seconds (`time.sleep((attempt + 1) * 2)` between retries). The
`[]` base case is the loop falling off the end, which cannot happen because
the last attempt always returns or raises. -/
def makeApiRequestGo {δ : Type} (resultado : ℕ → ApiIntento δ) :
    List ℕ → Except Unit δ × List ℕ
  | [] => (.error (), [])
  | attempt :: restantes =>
    match intentoExito (resultado attempt) with
    | some data => (.ok data, [])
    | none =>
      if attempt = MAX_RETRIES - 1 then (.error (), [])
      else
        let r := makeApiRequestGo resultado restantes
        (r.1, (attempt + 1) * 2 :: r.2)

/-- Function `ChatbotClima._make_api_request` (src/app.py lines 344-378): up
to `MAX_RETRIES` attempts, at attempt indices `range(MAX_RETRIES)`. -/
def makeApiRequest {δ : Type} (resultado : ℕ → ApiIntento δ) :
    Except Unit δ × List ℕ :=
  makeApiRequestGo resultado (List.range MAX_RETRIES)

/-- One entry of the geocoding response list (src/app.py lines 390-397):
the name, lat, lon and country fields of `data[0]`, read with `.get` and so
each possibly absent. -/
structure GeoLocation where
  name : Option (List Char)
  lat : Option ℚ
  lon : Option ℚ
  country : Option (List Char)
deriving DecidableEq

/-- Function `ChatbotClima.obtener_coordenadas` (src/app.py lines 380-402): calls
`_make_api_request` on the geocoding endpoint; the surrounding
`except Exception` turns ANY failure (including the exhausted-retries
`WeatherAPIError`) into the all-`None` tuple, and an empty successful
response (`if data and len(data) > 0` false) also yields the all-`None`
tuple. -/
def obtenerCoordenadas (resultado : ℕ → ApiIntento (List GeoLocation)) :
    Option (List Char) × Option ℚ × Option ℚ × Option (List Char) :=
  match (makeApiRequest resultado).1 with
  | .error _ => (none, none, none, none)
  | .ok data =>
    match data with
    | [] => (none, none, none, none)
    | loc :: _ => (loc.name, loc.lat, loc.lon, loc.country)

/-- Outcome of the `@coordenadas:` branch of the `/chat` route: either the
call into `chatbot.obtener_clima_por_coordenadas` (the first network
activity on this path) or an immediate client-error JSON response with an
HTTP status code. -/
inductive RutaCoordenadas where
  | llamadaRed (lat lon : ℚ)
  | errorCliente (codigo : ℕ) (msg : List Char)
deriving DecidableEq

/-- The client-error message of the coordinate branch (src/app.py line 835). -/
def msgCoordenadasInvalidas : List Char :=
  cs "Formato de coordenadas inválido. Por favor, inténtalo de nuevo."

/-- The range-validation step of the `/chat` coordinate branch (src/app.py
lines 817-830): `if not (-90 <= lat <= 90) or not (-180 <= lon <= 180)`
raises `ValueError`, which the handler answers with HTTP 400 before any
geocoding or weather request is made; otherwise the weather fetch runs.
Floats are modelled as rationals. -/
def manejarCoordenadas (lat lon : ℚ) : RutaCoordenadas :=
  if ¬(-90 ≤ lat ∧ lat ≤ 90) ∨ ¬(-180 ≤ lon ∧ lon ≤ 180) then
    .errorCliente 400 msgCoordenadasInvalidas
  else .llamadaRed lat lon

/-- Python `round()` to an integer: round half to even. -/
def pyRoundHalfEven (q : ℚ) : ℤ :=
  if q - Rat.floor q < 1 / 2 then Rat.floor q
  else if q - Rat.floor q > 1 / 2 then Rat.floor q + 1
  else if Rat.floor q % 2 = 0 then Rat.floor q else Rat.floor q + 1

/-- Python `round(x, 1)`: round to one decimal place, half to even. -/
def pyRound1dec (q : ℚ) : ℚ := (pyRoundHalfEven (q * 10) : ℚ) / 10

/-- The wind conversion of `obtener_clima_por_coordenadas` (src/app.py line
452): multiply the speed field of the wind block by 3.6 and round to one
decimal, with the speed defaulting to 0 when the wind block is missing or
has no speed field. -/
def windSpeedKmh (speed : Option ℚ) : ℚ :=
  pyRound1dec (speed.getD 0 * (36 / 10))

/-- Python `string.punctuation` as a character list (ASCII 33-47, 58-64,
91-96, 123-126). -/
def puntuacion : List Char :=
  ([33, 34, 35, 36, 37, 38, 39, 40, 41, 42, 43, 44, 45, 46, 47,
    58, 59, 60, 61, 62, 63, 64, 91, 92, 93, 94, 95, 96,
    123, 124, 125, 126] : List ℕ).map Char.ofNat

/-- The singleton-string tokens of `set(punctuation)` that the token filter of
`_limpiar_texto` compares against. -/
def puntuacionTokens : List (List Char) := puntuacion.map (fun c => [c])

/-- Python `' '.join(tokens)`. -/
def unirConEspacios : List (List Char) → List Char
  | [] => []
  | [t] => t
  | t :: u :: resto => t ++ ' ' :: unirConEspacios (u :: resto)

/-- Function `ChatbotClima._limpiar_texto` (src/app.py lines 313-323) on a string:
tokenize the lowercased text (the NLTK `word_tokenize` and the Spanish
stopword list are external data, so the tokenizer `tok` and stopword set
`stop` are parameters), drop stopword and punctuation tokens, and rejoin
with spaces. -/
def limpiarTexto (tok : List Char → List (List Char))
    (stop : List (List Char)) (texto : List Char) : List Char :=
  unirConEspacios
    ((tok (texto.map pyLower)).filter
      (fun t => !(stop.contains t) && !(puntuacionTokens.contains t)))

/-- Function `_eliminar_tildes` applied to an arbitrary Python value: on a non-string,
`texto.lower()` raises `AttributeError` (there is no type guard in the
source); on a string it totally computes the replaced text. -/
def eliminarTildesPy : PyVal → Except (List Char) (List Char)
  | .nonStr => .error (cs "AttributeError")
  | .str s => .ok (eliminarTildes s)

/-- Function `_limpiar_texto` applied to an arbitrary Python value: on a non-string,
`texto.lower()` raises `AttributeError`; on a string it totally computes. -/
def limpiarTextoPy (tok : List Char → List (List Char))
    (stop : List (List Char)) : PyVal → Except (List Char) (List Char)
  | .nonStr => .error (cs "AttributeError")
  | .str s => .ok (limpiarTexto tok stop s)

/-- The message of the first testable-property example:
`"Hola, ¿qué clima hace en España?"`. -/
def mensajeHolaClima : List Char := cs "Hola, ¿qué clima hace en España?"

/-- Every character produced by the `reemplazos` table is unaccented; in
particular it is never one of the accented characters appearing in the
intent keyword tables. -/
theorem reemplazosChar_sin_acentos (c : Char) :
    reemplazosChar c ≠ 'í' ∧ reemplazosChar c ≠ 'ó' ∧ reemplazosChar c ≠ 'é' := by
  by_cases h1 : c = 'á'
  · subst h1; decide
  by_cases h2 : c = 'é'
  · subst h2; decide
  by_cases h3 : c = 'í'
  · subst h3; decide
  by_cases h4 : c = 'ó'
  · subst h4; decide
  by_cases h5 : c = 'ú'
  · subst h5; decide
  by_cases h6 : c = 'ü'
  · subst h6; decide
  by_cases h7 : c = 'ñ'
  · subst h7; decide
  by_cases h8 : c = 'à'
  · subst h8; decide
  by_cases h9 : c = 'è'
  · subst h9; decide
  by_cases h10 : c = 'ì'
  · subst h10; decide
  by_cases h11 : c = 'ò'
  · subst h11; decide
  by_cases h12 : c = 'ù'
  · subst h12; decide
  have hc : reemplazosChar c = c := by
    simp only [reemplazosChar, if_neg h1, if_neg h2, if_neg h3, if_neg h4,
      if_neg h5, if_neg h6, if_neg h7, if_neg h8, if_neg h9, if_neg h10,
      if_neg h11, if_neg h12]
  rw [hc]
  exact ⟨h3, h4, h2⟩

/-- If `pajar` starts with `aguja`, every character of `aguja` occurs in
`pajar`. -/
theorem empiezaCon_mem {aguja pajar : List Char} (h : empiezaCon aguja pajar = true) :
    ∀ c ∈ aguja, c ∈ pajar := by
  induction aguja generalizing pajar with
  | nil => intro c hc; cases hc
  | cons a as ih =>
    cases pajar with
    | nil => cases h
    | cons b bs =>
      unfold empiezaCon at h
      rw [Bool.and_eq_true] at h
      obtain ⟨hab, hrest⟩ := h
      have hab' : a = b := by exact decide_eq_true_eq.mp hab
      intro c hc
      rcases List.mem_cons.mp hc with hc | hc
      · subst hc; rw [hab']; exact List.mem_cons_self b bs
      · exact List.mem_cons_of_mem b (ih hrest c hc)

/-- If `aguja` is a substring of `pajar`, every character of `aguja` occurs
in `pajar`. -/
theorem esSubcadena_mem {aguja pajar : List Char}
    (h : esSubcadena aguja pajar = true) : ∀ c ∈ aguja, c ∈ pajar := by
  induction pajar with
  | nil =>
    intro c hc
    unfold esSubcadena at h
    rw [List.isEmpty_iff] at h
    subst h; cases hc
  | cons b bs ih =>
    unfold esSubcadena at h
    rw [Bool.or_eq_true] at h
    intro c hc
    rcases h with h | h
    · exact empiezaCon_mem h c hc
    · exact List.mem_cons_of_mem b (ih h c hc)

/-- A keyword containing a character that the accent-replacement table can
never output is never a substring of an accent-stripped text. -/
theorem esSubcadena_eliminarTildes_false (k : List Char) (c : Char)
    (hc : c ∈ k) (hno : ∀ x, reemplazosChar x ≠ c) (l : List Char) :
    esSubcadena k (eliminarTildes l) = false := by
  cases hb : esSubcadena k (eliminarTildes l) with
  | false => rfl
  | true =>
    exfalso
    have hmem : c ∈ eliminarTildes l := esSubcadena_mem hb c hc
    unfold eliminarTildes at hmem
    obtain ⟨x, _, hx⟩ := List.mem_map.mp hmem
    exact hno x hx

/-- Pass 2 skips any leading tokens that `_normalizar_pais` rejects. -/
theorem buscarPass2_append (pre l : List (List Char))
    (h : ∀ u ∈ pre, normalizarPais u = none) :
    buscarPass2 (pre ++ l) = buscarPass2 l := by
  induction pre with
  | nil => rfl
  | cons p resto ih =>
    have hp : normalizarPais p = none := h p (List.mem_cons_self p resto)
    have hresto : ∀ u ∈ resto, normalizarPais u = none :=
      fun u hu => h u (List.mem_cons_of_mem p hu)
    rw [List.cons_append]
    calc buscarPass2 (p :: (resto ++ l))
        = buscarPass2 (resto ++ l) := by simp only [buscarPass2, hp]
      _ = buscarPass2 l := ih hresto

/-- On a nonempty string, the `ubicacion` field of `extraer_entidades` is the
result of the two-pass location search over the whitespace tokens of the
accent-stripped lowercased text. -/
theorem extraerEntidades_ubicacion (m : List Char) (hm : m.isEmpty = false) :
    (extraerEntidades (.str m)).ubicacion =
      buscarUbicacion (splitWs (eliminarTildes (m.map pyLower))) := by
  show (if m.isEmpty then entidadesVacias else extraerEntidadesNucleo m).ubicacion = _
  rw [hm]
  rfl

/-- C3 (counterexample): `obtener_zona_horaria` called with ISO code RU (as
the `codigo_pais` parameter, or as a `pais_usuario` value RU that is not a
`PAISES_INFO` key) does NOT return Europe/Moscow: it falls through to the
coordinate lookup, here yielding Asia/Vladivostok. This refutes the claim
that the ISO code RU alone pins the zone. -/
theorem C3_contraejemplo :
    obtenerZonaHoraria (fun _ _ => some (cs "Asia/Vladivostok")) 43 132
        (some (cs "RU")) none = some (cs "Asia/Vladivostok") ∧
    obtenerZonaHoraria (fun _ _ => some (cs "Asia/Vladivostok")) 43 132
        none (some (cs "RU")) = some (cs "Asia/Vladivostok") ∧
    cs "Asia/Vladivostok" ≠ cs "Europe/Moscow" := by
  refine ⟨rfl, rfl, by decide⟩

/-- C3 (amended): for every coordinate pair, every coordinate-based lookup
behavior and every `codigo_pais` value, `obtener_zona_horaria` with the
user country hint rusia (in either case) returns Europe/Moscow — the first
entry of the RU `timezone_candidates` list — ignoring the coordinates; with
only the ISO code RU supplied (no recognized user hint), the zone instead
comes from the coordinate lookup. -/
theorem C3_zona_fijada_rusia :
    (∀ (tfAt : ℚ → ℚ → Option (List Char)) (lat lon : ℚ)
        (cp : Option (List Char)),
      obtenerZonaHoraria tfAt lat lon cp (some (cs "rusia")) =
        some (cs "Europe/Moscow")) ∧
    (∀ (tfAt : ℚ → ℚ → Option (List Char)) (lat lon : ℚ)
        (cp : Option (List Char)),
      obtenerZonaHoraria tfAt lat lon cp (some (cs "Rusia")) =
        some (cs "Europe/Moscow")) ∧
    (∀ (tfAt : ℚ → ℚ → Option (List Char)) (lat lon : ℚ),
      obtenerZonaHoraria tfAt lat lon (some (cs "RU")) none = tfAt lat lon) :=
  ⟨fun _ _ _ _ => rfl, fun _ _ _ _ => rfl, fun _ _ _ => rfl⟩

/-- C6: every parsed coordinate pair with latitude outside `[-90, 90]` or
longitude outside `[-180, 180]` is answered by the `/chat` coordinate branch
with the HTTP 400 client-error response (the `ValueError` path), and the
weather pipeline — the only constructor performing network calls — is never
reached. -/
theorem C6_coordenadas_fuera_de_rango (lat lon : ℚ)
    (h : ¬(-90 ≤ lat ∧ lat ≤ 90) ∨ ¬(-180 ≤ lon ∧ lon ≤ 180)) :
    manejarCoordenadas lat lon =
      RutaCoordenadas.errorCliente 400 msgCoordenadasInvalidas := by
  unfold manejarCoordenadas
  rw [if_pos h]

/-- C6 (witness): latitude 91 and longitude -181 are both rejected with the
400 client error before any network call. -/
theorem C6_testigo :
    manejarCoordenadas 91 0 =
      RutaCoordenadas.errorCliente 400 msgCoordenadasInvalidas ∧
    manejarCoordenadas 0 (-181) =
      RutaCoordenadas.errorCliente 400 msgCoordenadasInvalidas :=
  ⟨C6_coordenadas_fuera_de_rango 91 0 (by norm_num),
   C6_coordenadas_fuera_de_rango 0 (-181) (by norm_num)⟩

/-- C7: the time-of-day label depends only on the local hour, with morning
exactly on hours 5-11, afternoon exactly on hours 12-19, and night
otherwise; in particular hour 4 is night, 5 and 11 morning, 12 and 19
afternoon, and 20 night. -/
theorem C7_momento_del_dia (h : ℕ) :
    (momentoDelDia h = cs "de la mañana" ↔ 5 ≤ h ∧ h < 12) ∧
    (momentoDelDia h = cs "de la tarde" ↔ 12 ≤ h ∧ h < 20) ∧
    (momentoDelDia h = cs "de la noche" ↔ h < 5 ∨ 20 ≤ h) ∧
    momentoDelDia 4 = cs "de la noche" ∧
    momentoDelDia 5 = cs "de la mañana" ∧
    momentoDelDia 11 = cs "de la mañana" ∧
    momentoDelDia 12 = cs "de la tarde" ∧
    momentoDelDia 19 = cs "de la tarde" ∧
    momentoDelDia 20 = cs "de la noche" := by
  refine ⟨?_, ?_, ?_, by decide, by decide, by decide, by decide, by decide,
    by decide⟩
  · unfold momentoDelDia
    split_ifs with h1 h2
    · exact iff_of_true rfl h1
    · exact iff_of_false (by decide) h1
    · exact iff_of_false (by decide) h1
  · unfold momentoDelDia
    split_ifs with h1 h2
    · exact iff_of_false (by decide) (by omega)
    · exact iff_of_true rfl h2
    · exact iff_of_false (by decide) h2
  · unfold momentoDelDia
    split_ifs with h1 h2
    · exact iff_of_false (by decide) (by omega)
    · exact iff_of_false (by decide) (by omega)
    · exact iff_of_true rfl (by omega)

/-- C10: the wind speed rendering multiplies the meters-per-second value by
3.6 and rounds to one decimal (Python `round`); 10 m/s yields exactly 36.0
km/h, and an absent wind speed defaults to 0, yielding 0.0 km/h. -/
theorem C10_viento :
    windSpeedKmh (some 10) = 36 ∧
    windSpeedKmh none = 0 ∧
    (∀ v : ℚ, windSpeedKmh (some v) = pyRound1dec (v * (36 / 10))) := by
  have hround : ∀ q : ℚ, (Rat.floor q : ℚ) = q → (pyRoundHalfEven q : ℚ) = q := by
    intro q hq
    have hc : q - (Rat.floor q : ℚ) < 1 / 2 := by rw [hq]; norm_num
    unfold pyRoundHalfEven
    rw [if_pos hc]
    exact hq
  have h360 : ((Rat.floor (360 : ℚ) : ℤ) : ℚ) = 360 := by
    exact_mod_cast congrArg (fun z : ℤ => (z : ℚ))
      (show Rat.floor (360 : ℚ) = 360 by decide)
  have h0 : ((Rat.floor (0 : ℚ) : ℤ) : ℚ) = 0 := by
    exact_mod_cast congrArg (fun z : ℤ => (z : ℚ))
      (show Rat.floor (0 : ℚ) = 0 by decide)
  refine ⟨?_, ?_, fun v => rfl⟩
  · show pyRound1dec ((some (10 : ℚ)).getD 0 * (36 / 10)) = 36
    rw [Option.getD_some]
    unfold pyRound1dec
    rw [show (10 : ℚ) * (36 / 10) * 10 = 360 by norm_num]
    rw [hround 360 h360]
    norm_num
  · show pyRound1dec ((none : Option ℚ).getD 0 * (36 / 10)) = 0
    rw [Option.getD_none]
    unfold pyRound1dec
    rw [show (0 : ℚ) * (36 / 10) * 10 = 0 by norm_num]
    rw [hround 0 h0]
    norm_num

/-- C1 (counterexample): on the message "Hola, ¿qué clima hace en España?"
`extraer_entidades` returns `ubicacion = "argentina"`, not the canonical
Spain name: the token after the marker is the punctuated "espana?", which
`_normalizar_pais` rejects (its alias target espana is not a `PAISES_INFO`
key and the substring scan fails on the ñ of españa), and pass 2 then
resolves the marker word "en" itself as a substring of argentina. -/
theorem C1_contraejemplo :
    (extraerEntidades (.str mensajeHolaClima)).ubicacion = some (cs "argentina") ∧
    cs "argentina" ≠ cs "españa" ∧
    cs "argentina" ≠ cs "espana" := by
  refine ⟨by decide, by decide, by decide⟩

/-- C1 (amended): on the message "Hola, ¿qué clima hace en España?"
`extraer_entidades` returns `es_saludo = true`, `es_clima = true`,
`es_hora = false`, `es_pais = true`, and `ubicacion = "argentina"` (not the
canonical Spain name — see the counterexample); `procesar_mensaje` on that
message returns the fixed greeting welcome message, short-circuiting even
though the weather flag is also true. -/
theorem C1_saludo_cortocircuito :
    extraerEntidades (.str mensajeHolaClima) =
      ⟨true, true, false, some (cs "argentina"), true⟩ ∧
    procesarMensaje mensajeHolaClima = Respuesta.texto mensajeBienvenida := by
  refine ⟨by decide, by decide⟩

/-- C2 (counterexample): the alias table maps españa to espana, but
`_normalizar_pais` applied to españa returns nothing (espana is not a
`PAISES_INFO` key — the registry key is spelled españa with ñ — and the
substring fallback fails); likewise the accent-noised éeuu is not resolved
at all, because `_normalizar_pais` never strips accents from its input. -/
theorem C2_contraejemplo :
    (cs "españa", cs "espana") ∈ variacionesPaises ∧
    normalizarPais (cs "españa") = none ∧
    normalizarPais (cs "éeuu") = none := by
  refine ⟨by decide, by decide, by decide⟩

/-- C2 (amended): every alias whose mapped canonical name is itself a
`PAISES_INFO` key resolves to exactly that canonical name; resolution
depends only on the lowercased, stripped input (so case variation never
changes the result), and in particular EEUU and eeuu both resolve to
estados unidos. Aliases whose target is missing from `PAISES_INFO` (such as
españa → espana) and accent variants absent from the table (such as éeuu)
are NOT resolved — see the counterexample. -/
theorem C2_alias_en_registro :
    (∀ p ∈ variacionesPaises, (busca p.2 paisesInfo).isSome = true →
      normalizarPais p.1 = some p.2) ∧
    (∀ s t : List Char, pyStrip (s.map pyLower) = pyStrip (t.map pyLower) →
      normalizarPais s = normalizarPais t) ∧
    normalizarPais (cs "EEUU") = some (cs "estados unidos") ∧
    normalizarPais (cs "eeuu") = some (cs "estados unidos") := by
  refine ⟨by decide, ?_, by decide, by decide⟩
  intro s t h
  unfold normalizarPais
  rw [h]

/-- C2 (witness): the alias usa is in the table, its target estados unidos
is a `PAISES_INFO` key, and `_normalizar_pais` resolves it accordingly. -/
theorem C2_testigo : normalizarPais (cs "usa") = some (cs "estados unidos") :=
  C2_alias_en_registro.1 (cs "usa", cs "estados unidos") (by decide) (by decide)

/-- C8 (counterexample): non-string input makes `_eliminar_tildes` and
`_limpiar_texto` raise `AttributeError` (from `texto.lower()`) instead of
returning an empty result; only `extraer_entidades` has a type guard. -/
theorem C8_contraejemplo :
    eliminarTildesPy PyVal.nonStr = Except.error (cs "AttributeError") ∧
    limpiarTextoPy (fun _ => []) [] PyVal.nonStr =
      Except.error (cs "AttributeError") :=
  ⟨rfl, rfl⟩

/-- C8 (amended): on string inputs the normalizer operations are total and
pure — `_eliminar_tildes` always succeeds and maps the empty string to the
empty string, and `_limpiar_texto` maps the empty string to the empty
string (given that the tokenizer maps empty to empty, as NLTK does) — and
`extraer_entidades` returns the empty entity record on non-string and empty
input; but non-string input to `_eliminar_tildes` or `_limpiar_texto`
raises `AttributeError` rather than returning an empty result (see the
counterexample). -/
theorem C8_total_en_strings :
    (∀ s : List Char, eliminarTildesPy (.str s) = .ok (eliminarTildes s)) ∧
    eliminarTildesPy (.str []) = .ok [] ∧
    (∀ (tok : List Char → List (List Char)) (stop : List (List Char)),
      tok [] = [] → limpiarTextoPy tok stop (.str []) = .ok []) ∧
    extraerEntidades .nonStr = entidadesVacias ∧
    extraerEntidades (.str []) = entidadesVacias := by
  refine ⟨fun s => rfl, rfl, ?_, rfl, rfl⟩
  intro tok stop h
  show Except.ok (limpiarTexto tok stop []) = Except.ok []
  unfold limpiarTexto
  rw [List.map_nil, h]
  rfl

/-- C8 (witness): with a tokenizer that maps every text to the empty token
list, `_limpiar_texto` of the empty string is the empty string. -/
theorem C8_testigo : limpiarTextoPy (fun _ => []) [] (.str []) = .ok [] :=
  C8_total_en_strings.2.2.1 (fun _ => []) [] rfl

/-- C9: the four intent keywords that retain accents — buenos días,
pronóstico, hace frío, qué horas son — can never occur as substrings of the
accent-stripped message text (the replacement table never outputs í, ó or
é), so they can never fire; in particular the message "buenos días" alone
does not set `es_saludo`. -/
theorem C9_palabras_acentuadas_muertas (m : List Char) :
    esSubcadena (cs "buenos días") (eliminarTildes (m.map pyLower)) = false ∧
    esSubcadena (cs "pronóstico") (eliminarTildes (m.map pyLower)) = false ∧
    esSubcadena (cs "hace frío") (eliminarTildes (m.map pyLower)) = false ∧
    esSubcadena (cs "qué horas son") (eliminarTildes (m.map pyLower)) = false ∧
    (extraerEntidades (.str (cs "buenos días"))).esSaludo = false := by
  refine ⟨?_, ?_, ?_, ?_, by decide⟩
  · exact esSubcadena_eliminarTildes_false _ 'í' (by decide)
      (fun x => (reemplazosChar_sin_acentos x).1) _
  · exact esSubcadena_eliminarTildes_false _ 'ó' (by decide)
      (fun x => (reemplazosChar_sin_acentos x).2.1) _
  · exact esSubcadena_eliminarTildes_false _ 'í' (by decide)
      (fun x => (reemplazosChar_sin_acentos x).1) _
  · exact esSubcadena_eliminarTildes_false _ 'é' (by decide)
      (fun x => (reemplazosChar_sin_acentos x).2.2) _

/-- Pass 1 finding nothing means the combined location search is pass 2. -/
theorem buscarUbicacion_pass2 (toks : List (List Char))
    (h : buscarPass1 toks = none) : buscarUbicacion toks = buscarPass2 toks := by
  unfold buscarUbicacion
  rw [h]

/-- C4: the location-marker words are themselves run through country
resolution in pass 2 — the token de resolves to alemania by exact alias
match and the token en resolves to argentina because en is a substring of
argentina, the first such key in registry iteration order — so every
message whose whitespace tokens contain en or de, whose tokens before that
marker resolve to no country, and whose pass-1 marker scan finds nothing,
gets a non-null `ubicacion` of argentina or alemania even when it mentions
no real location. -/
theorem C4_marcadores_como_paises :
    normalizarPais (cs "de") = some (cs "alemania") ∧
    normalizarPais (cs "en") = some (cs "argentina") ∧
    (∀ (m : List Char) (pre : List (List Char)) (t : List Char)
        (post : List (List Char)),
      splitWs (eliminarTildes (m.map pyLower)) = pre ++ t :: post →
      (t = cs "en" ∨ t = cs "de") →
      (∀ u ∈ pre, normalizarPais u = none) →
      buscarPass1 (splitWs (eliminarTildes (m.map pyLower))) = none →
      (extraerEntidades (.str m)).ubicacion = some (cs "argentina") ∨
      (extraerEntidades (.str m)).ubicacion = some (cs "alemania")) := by
  have hde : normalizarPais (cs "de") = some (cs "alemania") := by decide
  have hen : normalizarPais (cs "en") = some (cs "argentina") := by decide
  refine ⟨hde, hen, ?_⟩
  intro m pre t post htoks ht hpre hp1
  have hm : m.isEmpty = false := by
    cases m with
    | nil =>
      exfalso
      have h0 : ([] : List (List Char)) = pre ++ t :: post := htoks
      rcases pre with _ | ⟨p, pre⟩ <;> simp at h0
    | cons a l => rfl
  rw [extraerEntidades_ubicacion m hm, buscarUbicacion_pass2 _ hp1, htoks,
    buscarPass2_append pre (t :: post) hpre]
  rcases ht with h | h <;> subst h
  · exact Or.inl (by simp only [buscarPass2, hen])
  · exact Or.inr (by simp only [buscarPass2, hde])

/-- C4 (witness): the message "en algo" — which names no real location —
has tokens whose pass-1 scan fails (algo is not a country) and whose token
en then resolves in pass 2, yielding a non-null location. -/
theorem C4_testigo :
    (extraerEntidades (.str (cs "en algo"))).ubicacion = some (cs "argentina") ∨
    (extraerEntidades (.str (cs "en algo"))).ubicacion = some (cs "alemania") :=
  C4_marcadores_como_paises.2.2 (cs "en algo") [] (cs "en") [cs "algo"]
    (by decide) (Or.inl rfl) (by decide) (by decide)

/-- C5 (counterexample): when every attempt fails, `_make_api_request` does
raise the final `WeatherAPIError` (the error result), but
`obtener_coordenadas` swallows it with its own `except Exception` handler
and returns the all-`None` tuple — the same value as the nothing-found
case — instead of letting a `WeatherServiceError` surface to its caller. -/
theorem C5_contraejemplo :
    (makeApiRequest (fun _ => (ApiIntento.excepcion :
        ApiIntento (List GeoLocation)))).1 = Except.error () ∧
    obtenerCoordenadas (fun _ => ApiIntento.excepcion) =
      (none, none, none, none) :=
  ⟨rfl, rfl⟩

/-- C5 (amended): the HTTP client makes at most `MAX_RETRIES = 3` attempts
with a `TIMEOUT = 15` second per-attempt timeout and sleeps exactly
`2 * (attempt + 1)` seconds between consecutive attempts (so the delay list
is always a prefix of `[2, 4]`); when all three attempts fail (non-200
status or transport failure), `_make_api_request` ends in the
`WeatherAPIError` state after sleeping 2 then 4 seconds, but
`obtener_coordenadas` catches that error and returns the all-`None` tuple,
exactly as it does for a successful but empty response; a successful
non-empty response yields the fields of the first location. -/
theorem C5_reintentos :
    MAX_RETRIES = 3 ∧ TIMEOUT = 15 ∧
    (∀ resultado : ℕ → ApiIntento (List GeoLocation),
      (makeApiRequest resultado).2 = [] ∨
      (makeApiRequest resultado).2 = [2] ∨
      (makeApiRequest resultado).2 = [2, 4]) ∧
    (∀ resultado : ℕ → ApiIntento (List GeoLocation),
      (∀ k, k < MAX_RETRIES → intentoExito (resultado k) = none) →
      makeApiRequest resultado = (Except.error (), [2, 4])) ∧
    (∀ resultado : ℕ → ApiIntento (List GeoLocation),
      (makeApiRequest resultado).1 = Except.error () →
      obtenerCoordenadas resultado = (none, none, none, none)) ∧
    (∀ resultado : ℕ → ApiIntento (List GeoLocation),
      (makeApiRequest resultado).1 = Except.ok [] →
      obtenerCoordenadas resultado = (none, none, none, none)) ∧
    (∀ (resultado : ℕ → ApiIntento (List GeoLocation)) (loc : GeoLocation)
        (rest : List GeoLocation),
      (makeApiRequest resultado).1 = Except.ok (loc :: rest) →
      obtenerCoordenadas resultado =
        (loc.name, loc.lat, loc.lon, loc.country)) := by
  have hlista : List.range MAX_RETRIES = [0, 1, 2] := by decide
  refine ⟨rfl, rfl, ?_, ?_, ?_, ?_, ?_⟩
  · intro resultado
    unfold makeApiRequest
    rw [hlista]
    cases h0 : intentoExito (resultado 0) with
    | some d => simp [makeApiRequestGo, h0]
    | none =>
      cases h1 : intentoExito (resultado 1) with
      | some d => simp [makeApiRequestGo, h0, h1, MAX_RETRIES]
      | none =>
        cases h2 : intentoExito (resultado 2) with
        | some d => simp [makeApiRequestGo, h0, h1, h2, MAX_RETRIES]
        | none => simp [makeApiRequestGo, h0, h1, h2, MAX_RETRIES]
  · intro resultado h
    have h0 := h 0 (by decide)
    have h1 := h 1 (by decide)
    have h2 := h 2 (by decide)
    unfold makeApiRequest
    rw [hlista]
    simp [makeApiRequestGo, h0, h1, h2, MAX_RETRIES]
  · intro resultado herr
    unfold obtenerCoordenadas
    rw [herr]
  · intro resultado hok
    unfold obtenerCoordenadas
    rw [hok]
  · intro resultado loc rest hok
    unfold obtenerCoordenadas
    rw [hok]

/-- C5 (witness): with every attempt a transport failure, the client ends in
the error state after exactly the sleeps 2 and 4 seconds. -/
theorem C5_testigo :
    makeApiRequest (fun _ => (ApiIntento.excepcion :
        ApiIntento (List GeoLocation))) = (Except.error (), [2, 4]) :=
  C5_reintentos.2.2.2.1 (fun _ => ApiIntento.excepcion) (fun _ _ => rfl)

end ChatbotClima
